import Mathlib

/-!
Verification development for the repository `graph-data-science-client`
(example content: `examples/heterogeneous-node-classification-with-hashgnn.ipynb`).

The repository consists of a single Jupyter notebook that issues remote calls
into the `graphdatascience` client library against an external GDS server.
The notebook's own local logic (environment-variable handling, the one local
assertion, the exact sequence and arguments of the remote calls) is embedded
directly from the source.  Behaviour that lives in the client library or on
the server (session construction, the IMDB example dataset, pipeline state,
train/test splitting, autotuning, prediction, catalogs, seeded randomness)
is not under `src/`; such definitions are modelled from the specification and
carry a doc comment starting with `Modelled from the spec:`.
-/

/-! ## Process environment and connection setup (notebook cell `51c1426e`) -/

/-- The slice of the process environment read by the notebook.  Each field is
`none` when the variable is unset and `some s` when it is set to the string
`s` (possibly the empty string). -/
structure Env where
  neo4j_uri : Option String
  neo4j_user : Option String
  neo4j_password : Option String
  neo4j_db : Option String
deriving DecidableEq

/-- Python truthiness of the result of `os.environ.get(var)`: `None` is falsy
and a string is truthy exactly when it is non-empty. -/
def pyTruthy : Option String → Bool
  | none => false
  | some s => decide (s ≠ "")

/-- The connection parameters handed to the `GraphDataScience` constructor. -/
structure ConnectionParams where
  uri : String
  auth : Option (String × String)
  database : String
deriving DecidableEq

/-- Embedding of the connection-setup cell of the notebook:
`NEO4J_URI = os.environ.get("NEO4J_URI", "bolt://localhost:7687")`,
`NEO4J_DB = os.environ.get("NEO4J_DB", "neo4j")`, and the credential pair is
bound only under `if os.environ.get("NEO4J_USER") and
os.environ.get("NEO4J_PASSWORD")`, i.e. under Python truthiness of both. -/
def setupConnection (env : Env) : ConnectionParams :=
  { uri := env.neo4j_uri.getD "bolt://localhost:7687"
    auth :=
      if pyTruthy env.neo4j_user && pyTruthy env.neo4j_password then
        some (env.neo4j_user.getD "", env.neo4j_password.getD "")
      else none
    database := env.neo4j_db.getD "neo4j" }

/-! ## Server version and session establishment -/

/-- Three-component server version, as in `ServerVersion(2, 5, 0)`. -/
structure ServerVersion where
  major : Nat
  minor : Nat
  patch : Nat
deriving DecidableEq

/-- Modelled from the spec: the client library's `ServerVersion` comparison,
"a version at or above the asserted minimum", i.e. lexicographic order on
(major, minor, patch).  The comparison itself is library code not under
`src/`. -/
def versionGe (a b : ServerVersion) : Bool :=
  if a.major = b.major then
    if a.minor = b.minor then decide (b.patch ≤ a.patch)
    else decide (b.minor < a.minor)
  else decide (b.major < a.major)

/-- The minimum version asserted by the notebook: `ServerVersion(2, 5, 0)`. -/
def minServerVersion : ServerVersion := ⟨2, 5, 0⟩

/-- Modelled from the spec: the external server, as observable through session
establishment — whether a given URI reaches it, and the version it reports. -/
structure Server where
  reachableAt : String → Bool
  version : ServerVersion

/-- The two failure modes of session establishment named by the spec. -/
inductive SessionError
  | connectionError
  | compatibilityError
deriving DecidableEq

/-- Boolean success test for an `Except` value. -/
def exceptIsOk {ε α : Type} : Except ε α → Bool
  | Except.ok _ => true
  | Except.error _ => false

/-- Modelled from the spec: session establishment, i.e. the `GraphDataScience`
constructor (library code not under `src/`) followed by the notebook's own
minimum-version assertion — "fails with a connection error if the target is
unreachable, and with a compatibility error if the server's reported version
is below a minimum the caller asserts". -/
def establishSession (params : ConnectionParams) (srv : Server) :
    Except SessionError Unit :=
  if srv.reachableAt params.uri then
    if versionGe srv.version minServerVersion then Except.ok ()
    else Except.error SessionError.compatibilityError
  else Except.error SessionError.connectionError

/-! ## The notebook as a sequence of statements -/

/-- The remote calls issued by the notebook's code cells, in the order the
cells appear. -/
inductive RemoteCall
  | connect
  | serverVersion
  | loadImdb
  | nodeLabels
  | relationshipTypes
  | nodeProperties
  | createPipeline
  | configureSplit
  | addNodeProperty
  | selectFeatures
  | addLogisticRegression
  | addRandomForest
  | train
  | metrics
  | bestParameters
  | predictStream
  | dropGraph
  | dropPipeline
  | dropModel
deriving DecidableEq

/-- A statement of the notebook: either a plain remote call, or the single
local check `assert gds.server_version() >= ServerVersion(2, 5, 0)` (which
first issues the `server_version` remote call and then compares locally). -/
inductive Stmt
  | remote (c : RemoteCall)
  | assertVersionAtLeast (v : ServerVersion)
deriving DecidableEq

/-- Whether a statement performs a local check (the version assertion). -/
def isLocalCheck : Stmt → Bool
  | Stmt.remote _ => false
  | Stmt.assertVersionAtLeast _ => true

/-- Modelled from the spec: the external server's response behaviour during a
run — for each remote call, whether the server raises an error (and which
message), and the version it reports to `server_version`. -/
structure Oracle where
  fails : RemoteCall → Option String
  version : ServerVersion

/-- Outcome of running the notebook: ran to completion, terminated by an
uncaught server error at a statement, or terminated by the failed local
assertion at a statement. -/
inductive RunOutcome
  | completed
  | serverError (atStmt : Nat) (msg : String)
  | assertionError (atStmt : Nat)
deriving DecidableEq

/-- Modelled from the spec: sequential, synchronous execution of the notebook
statements with Python's uncaught-exception behaviour — an error terminates
the run at the raising statement and nothing after it executes.  Returns the
outcome together with the list of statements that started executing.
The first `Nat` argument is the index of the first statement of the list. -/
def runFrom (o : Oracle) : Nat → List Stmt → RunOutcome × List Stmt
  | _, [] => (RunOutcome.completed, [])
  | i, Stmt.remote c :: rest =>
    match o.fails c with
    | some e => (RunOutcome.serverError i e, [Stmt.remote c])
    | none =>
      ((runFrom o (i + 1) rest).1, Stmt.remote c :: (runFrom o (i + 1) rest).2)
  | i, Stmt.assertVersionAtLeast v :: rest =>
    match o.fails RemoteCall.serverVersion with
    | some e => (RunOutcome.serverError i e, [Stmt.assertVersionAtLeast v])
    | none =>
      if versionGe o.version v then
        ((runFrom o (i + 1) rest).1,
          Stmt.assertVersionAtLeast v :: (runFrom o (i + 1) rest).2)
      else (RunOutcome.assertionError i, [Stmt.assertVersionAtLeast v])

/-- Run a whole program from its first statement. -/
def run (prog : List Stmt) (o : Oracle) : RunOutcome × List Stmt :=
  runFrom o 0 prog

/-- The notebook's code cells flattened into their sequence of statements, in
source order.  `G.node_labels()` appears a second time because the
`addNodeProperty` cell evaluates it as the `contextNodeLabels` argument. -/
def notebookProgram : List Stmt :=
  [Stmt.remote RemoteCall.connect,
   Stmt.assertVersionAtLeast minServerVersion,
   Stmt.remote RemoteCall.loadImdb,
   Stmt.remote RemoteCall.nodeLabels,
   Stmt.remote RemoteCall.relationshipTypes,
   Stmt.remote RemoteCall.nodeProperties,
   Stmt.remote RemoteCall.createPipeline,
   Stmt.remote RemoteCall.configureSplit,
   Stmt.remote RemoteCall.nodeLabels,
   Stmt.remote RemoteCall.addNodeProperty,
   Stmt.remote RemoteCall.selectFeatures,
   Stmt.remote RemoteCall.addLogisticRegression,
   Stmt.remote RemoteCall.addRandomForest,
   Stmt.remote RemoteCall.train,
   Stmt.remote RemoteCall.metrics,
   Stmt.remote RemoteCall.bestParameters,
   Stmt.remote RemoteCall.predictStream,
   Stmt.remote RemoteCall.dropGraph,
   Stmt.remote RemoteCall.dropPipeline,
   Stmt.remote RemoteCall.dropModel]

/-- Index of the first statement issuing a given remote call. -/
def firstCallIdx (c : RemoteCall) : Nat :=
  notebookProgram.findIdx (fun s => decide (s = Stmt.remote c))

/-! ## The IMDB example graph (notebook cell `156843c3` and narration) -/

/-- A loaded server-side graph as observed through the handle's introspection
calls. -/
structure LoadedGraph where
  name : String
  nodeLabelsList : List String
  relTypes : List String
  propsOf : String → List String

/-- Modelled from the spec: `gds.graph.load_imdb()` is client-library code not
under `src/`.  The resulting graph is the one the spec and the notebook's
narration document: node labels `Movie`, `Actor`, `Director`,
`UnclassifiedMovie`; relationship types `ACTED_IN`, `DIRECTED_IN`; the target
attribute `genre` present only on `Movie`; the binary feature vector
`plot_keywords` present on every label. -/
def load_imdb : LoadedGraph :=
  { name := "imdb"
    nodeLabelsList := ["Movie", "Actor", "Director", "UnclassifiedMovie"]
    relTypes := ["ACTED_IN", "DIRECTED_IN"]
    propsOf := fun l =>
      if l = "Movie" then ["genre", "plot_keywords"]
      else if l = "Actor" ∨ l = "Director" ∨ l = "UnclassifiedMovie" then
        ["plot_keywords"]
      else [] }

/-! ## Pipeline configuration state -/

/-- A value in a GDS procedure configuration map: a number, a string, a
boolean, a list of strings, or a two-element numeric range requesting
autotuning. -/
inductive ParamValue
  | num (q : ℚ)
  | str (s : String)
  | boolVal (b : Bool)
  | strList (l : List String)
  | range (lo hi : ℚ)
deriving DecidableEq

/-- A candidate model specification added to the pipeline. -/
structure CandidateSpec where
  kind : String
  params : List (String × ParamValue)
deriving DecidableEq

/-- A node-property-producing step of the pipeline. -/
structure NodePropertyStep where
  procName : String
  config : List (String × ParamValue)
deriving DecidableEq

/-- Modelled from the spec: the server-side pipeline configuration object —
"holds an ordered list of node-property-producing steps, a feature-selection
list, a train/test split ratio, and a list of candidate model
specifications"; the object itself lives on the server, not under `src/`. -/
structure PipelineState where
  name : String
  splitConfig : List (String × ParamValue)
  steps : List NodePropertyStep
  featureProperties : List String
  candidates : List CandidateSpec
deriving DecidableEq

/-- Modelled from the spec: `gds.beta.pipeline.nodeClassification.create`
creates an empty named pipeline. -/
def nodeClassificationCreate (name : String) : PipelineState :=
  { name := name, splitConfig := [], steps := [], featureProperties := []
    candidates := [] }

/-- Modelled from the spec: `configureSplit` replaces the split
configuration. -/
def PipelineState.configureSplit (p : PipelineState)
    (cfg : List (String × ParamValue)) : PipelineState :=
  { p with splitConfig := cfg }

/-- Modelled from the spec: `addNodeProperty` appends a
node-property-producing step. -/
def PipelineState.addNodeProperty (p : PipelineState) (procName : String)
    (cfg : List (String × ParamValue)) : PipelineState :=
  { p with steps := p.steps ++ [{ procName := procName, config := cfg }] }

/-- Modelled from the spec: `selectFeatures` appends to the feature-selection
list. -/
def PipelineState.selectFeatures (p : PipelineState) (props : List String) :
    PipelineState :=
  { p with featureProperties := p.featureProperties ++ props }

/-- Modelled from the spec: `addLogisticRegression` appends a logistic
regression candidate model specification. -/
def PipelineState.addLogisticRegression (p : PipelineState)
    (cfg : List (String × ParamValue)) : PipelineState :=
  { p with candidates := p.candidates ++ [{ kind := "LogisticRegression", params := cfg }] }

/-- Modelled from the spec: `addRandomForest` appends a random forest
candidate model specification. -/
def PipelineState.addRandomForest (p : PipelineState)
    (cfg : List (String × ParamValue)) : PipelineState :=
  { p with candidates := p.candidates ++ [{ kind := "RandomForest", params := cfg }] }

/-! ## The notebook's concrete pipeline configuration, cell by cell -/

/-- Cell `48d11361`: `gds.beta.pipeline.nodeClassification.create("genre-predictor-pipe")`. -/
def pipeAfterCreate : PipelineState := nodeClassificationCreate "genre-predictor-pipe"

/-- Cell `9aacdd72`: `pipe.configureSplit(testFraction=0.796)`. -/
def pipeAfterSplit : PipelineState :=
  pipeAfterCreate.configureSplit [("testFraction", ParamValue.num (796/1000))]

/-- The configuration map of the HashGNN step in cell `5e254efe`. -/
def hashgnnConfig : List (String × ParamValue) :=
  [("mutateProperty", ParamValue.str "embedding"),
   ("iterations", ParamValue.num 4),
   ("heterogeneous", ParamValue.boolVal true),
   ("embeddingDensity", ParamValue.num 512),
   ("neighborInfluence", ParamValue.num (7/10)),
   ("featureProperties", ParamValue.strList ["plot_keywords"]),
   ("randomSeed", ParamValue.num 41),
   ("contextNodeLabels", ParamValue.strList load_imdb.nodeLabelsList)]

/-- Cell `5e254efe`: `pipe.addNodeProperty("hashgnn", ...)`. -/
def pipeAfterHashgnn : PipelineState :=
  pipeAfterSplit.addNodeProperty "hashgnn" hashgnnConfig

/-- Cell `30ff6713`: `pipe.selectFeatures("embedding")`. -/
def pipeAfterFeatures : PipelineState :=
  pipeAfterHashgnn.selectFeatures ["embedding"]

/-- Cell `8bccd326`: `pipe.addLogisticRegression(penalty=(0.1, 1.0),
maxEpochs=1000, patience=5, tolerance=0.0001, learningRate=0.01)`. -/
def pipeAfterLogReg : PipelineState :=
  pipeAfterFeatures.addLogisticRegression
    [("penalty", ParamValue.range (1/10) 1),
     ("maxEpochs", ParamValue.num 1000),
     ("patience", ParamValue.num 5),
     ("tolerance", ParamValue.num (1/10000)),
     ("learningRate", ParamValue.num (1/100))]

/-- Cell `62fca4ac`: `pipe.addRandomForest(minSplitSize=(2, 100),
criterion="ENTROPY")`; this is the pipeline state on which cell `89b8ad98`
invokes `pipe.train`. -/
def pipeAtTrain : PipelineState :=
  pipeAfterLogReg.addRandomForest
    [("minSplitSize", ParamValue.range 2 100),
     ("criterion", ParamValue.str "ENTROPY")]

/-- The arguments of the `pipe.train` call in cell `89b8ad98`. -/
structure TrainCall where
  graphName : String
  modelName : String
  targetNodeLabels : List String
  targetProperty : String
  metrics : List String
  randomSeed : Option ℚ
deriving DecidableEq

/-- Cell `89b8ad98`: `pipe.train(G, modelName="genre-predictor-model",
targetNodeLabels=["Movie"], targetProperty="genre", metrics=["F1_MACRO"],
randomSeed=42)`. -/
def notebookTrainCall : TrainCall :=
  { graphName := load_imdb.name
    modelName := "genre-predictor-model"
    targetNodeLabels := ["Movie"]
    targetProperty := "genre"
    metrics := ["F1_MACRO"]
    randomSeed := some 42 }

/-! ## Server-side behaviours modelled from the spec -/

/-- Modelled from the spec: the size of the held-out evaluation split chosen
by the server-side training, for split fraction `f` and classified population
size `n` — "must use exactly f of the classified population as held-out
evaluation data", i.e. `f * n` rounded to the nearest integer. -/
def evalSetSize (f : ℚ) (n : ℕ) : ℤ := round (f * (n : ℚ))

/-- Modelled from the spec: autotuning — "server-side search over candidate
hyperparameter ranges to select the best-performing configuration".  The
concrete search is server code not under `src/`; we model it as evaluating
`m + 1` evenly spaced trial points of the closed range and returning one of
them (the `k`-th, clamped to the grid). -/
def trialPoint (lo hi : ℚ) (m k : ℕ) : ℚ :=
  lo + (hi - lo) * (((min k m : ℕ) : ℚ) / (m : ℚ))

/-- Modelled from the spec: the winning configuration resolves each ranged
hyperparameter to the trial point the search selected, and keeps fixed
values unchanged. -/
def resolveValue (v : ParamValue) (m k : ℕ) : ParamValue :=
  match v with
  | ParamValue.range lo hi => ParamValue.num (trialPoint lo hi m k)
  | v => v

/-! ## Prediction (cell `d4419924`) -/

/-- A node of the server-side graph, as far as prediction is concerned: an
identifier and the node label it carries. -/
structure NodeRec where
  nodeId : ℕ
  label : String
deriving DecidableEq

/-- A row of the streamed prediction result. -/
structure PredRow where
  nodeId : ℕ
  predictedClass : ℕ
  probabilities : List ℚ
deriving DecidableEq

/-- Normalization of a list of class scores into a distribution. -/
def normalizeScores (l : List ℚ) : List ℚ :=
  l.map (fun s => s / l.sum)

/-- Index of a maximal element of a list of scores (0 for the empty list). -/
def argmaxIdx : List ℚ → ℕ
  | [] => 0
  | x :: xs =>
    if ((xs.get? (argmaxIdx xs)).getD x) ≤ x then 0 else argmaxIdx xs + 1

/-- Modelled from the spec: `model.predict_stream` is executed server-side,
not under `src/` — "one row per target node, carrying predicted label and,
optionally, predicted class probabilities".  The model's per-node class
scores are abstracted as `scores`; the predicted class is a maximizer and
the optional distribution is the normalization of the scores. -/
def predict_stream (nodes : List NodeRec) (scores : ℕ → List ℚ)
    (targetNodeLabels : List String)
    ( includePredictedProbabilities : Bool) : List PredRow :=
  (nodes.filter (fun n => decide (n.label ∈ targetNodeLabels))).map
    (fun n =>
      { nodeId := n.nodeId
        predictedClass := argmaxIdx (scores n.nodeId)
        probabilities :=
          if includePredictedProbabilities then normalizeScores (scores n.nodeId)
          else [] })

/-! ## Catalogs and release calls (cells `9241d9ff`, `94b96625`, `a85e1799`) -/

/-- Modelled from the spec: a server-side catalog of named resources (the
graph catalog, the pipeline catalog and the model catalog are its
instances). -/
structure Catalog where
  entries : List String
deriving DecidableEq

/-- Modelled from the spec: a release call (`drop`) removes the handle's name
from the catalog, freeing the server-side resource. -/
def Catalog.dropName (c : Catalog) (handle : String) : Catalog :=
  { entries := c.entries.filter (fun e => decide (e ≠ handle)) }

/-- Modelled from the spec: an accessor call on a handle looks the name up in
the catalog and fails with a "resource not found" error when absent. -/
def Catalog.accessHandle (c : Catalog) (handle : String) : Except String Unit :=
  if handle ∈ c.entries then Except.ok () else Except.error "resource not found"

/-! ## Seeded randomness (cells `5e254efe` and `89b8ad98`) -/

/-- A concrete linear congruential pseudo-random step. -/
def prngStep (s : ℕ) : ℕ := (s * 1103515245 + 12345) % 2 ^ 31

/-- Numeric seed of a configuration value. -/
def seedToNat (q : ℚ) : ℕ := q.num.toNat

/-- Modelled from the spec: the stream of random choices a server-side
algorithm draws from — derived from the caller-supplied `randomSeed` alone
when one is given, and from ambient server entropy otherwise. -/
def randomStream (seed : Option ℚ) (entropy : ℕ → ℕ) : ℕ → ℕ :=
  match seed with
  | some s => fun i => prngStep (seedToNat s + i)
  | none => entropy

/-- The configuration map of the single node-property step of the pipeline at
train time (the HashGNN step). -/
def hashgnnStepConfig : List (String × ParamValue) :=
  ((pipeAtTrain.steps.head?).map NodePropertyStep.config).getD []

/-- The `randomSeed` entry of a configuration map, when it is numeric. -/
def seedOfConfig (cfg : List (String × ParamValue)) : Option ℚ :=
  match cfg.lookup "randomSeed" with
  | some (ParamValue.num q) => some q
  | _ => none

/-- The random streams consumed by the notebook's two seeded computations
(the HashGNN embedding step and the training call), as a function of the
ambient server entropy. -/
def notebookRunRandomness (entropy : ℕ → ℕ) : (ℕ → ℕ) × (ℕ → ℕ) :=
  (randomStream (seedOfConfig hashgnnStepConfig) entropy,
   randomStream notebookTrainCall.randomSeed entropy)

/-! ## Helper lemmas -/

/-- An uncaught server error at absolute index `j` terminates the run: the
executed statements are exactly the prefix up to and including statement `j`,
and the propagated message is the server's own message for some call. -/
theorem runFrom_serverError (o : Oracle) :
    ∀ (prog : List Stmt) (i j : Nat) (e : String),
      (runFrom o i prog).1 = RunOutcome.serverError j e →
      i ≤ j ∧ j - i < prog.length ∧
      (runFrom o i prog).2 = prog.take (j - i + 1) ∧
      ∃ c, o.fails c = some e := by
  intro prog
  induction prog with
  | nil =>
    intro i j e h
    simp [runFrom] at h
  | cons s rest ih =>
    intro i j e h
    cases s with
    | remote c =>
      cases hf : o.fails c with
      | some msg =>
        simp [runFrom, hf] at h
        obtain ⟨rfl, rfl⟩ := h
        refine ⟨le_refl i, by simp, ?_, ⟨c, hf⟩⟩
        simp [runFrom, hf]
      | none =>
        simp only [runFrom, hf] at h
        obtain ⟨h1, h2, h3, h4⟩ := ih (i + 1) j e h
        refine ⟨by omega, by simp only [List.length_cons]; omega, ?_, h4⟩
        have hji : j - i + 1 = (j - (i + 1) + 1) + 1 := by omega
        rw [hji, List.take_succ_cons]
        simp only [runFrom, hf]
        rw [h3]
    | assertVersionAtLeast v =>
      cases hf : o.fails RemoteCall.serverVersion with
      | some msg =>
        simp [runFrom, hf] at h
        obtain ⟨rfl, rfl⟩ := h
        refine ⟨le_refl i, by simp, ?_, ⟨RemoteCall.serverVersion, hf⟩⟩
        simp [runFrom, hf]
      | none =>
        by_cases hv : versionGe o.version v
        · simp only [runFrom, hf, hv, if_true] at h
          obtain ⟨h1, h2, h3, h4⟩ := ih (i + 1) j e h
          refine ⟨by omega, by simp only [List.length_cons]; omega, ?_, h4⟩
          have hji : j - i + 1 = (j - (i + 1) + 1) + 1 := by omega
          rw [hji, List.take_succ_cons]
          simp only [runFrom, hf, hv, if_true]
          rw [h3]
        · simp [runFrom, hf, hv] at h

/-- Sum of a list divided elementwise by a constant. -/
theorem sum_map_div (l : List ℚ) (c : ℚ) :
    (l.map (fun s => s / c)).sum = l.sum / c := by
  induction l with
  | nil => simp
  | cons x xs ih => simp [ih, add_div]

/-- Normalizing a list of scores with non-zero sum yields a distribution. -/
theorem sum_normalizeScores (l : List ℚ) (h : l.sum ≠ 0) :
    (normalizeScores l).sum = 1 := by
  unfold normalizeScores
  rw [sum_map_div]
  exact div_self h

/-- Every trial point of a non-degenerate closed range lies in the range. -/
theorem trialPoint_mem (lo hi : ℚ) (m k : ℕ) (hm : 0 < m) (hle : lo ≤ hi) :
    lo ≤ trialPoint lo hi m k ∧ trialPoint lo hi m k ≤ hi := by
  have hm' : (0 : ℚ) < (m : ℚ) := by exact_mod_cast hm
  have h0 : (0 : ℚ) ≤ ((min k m : ℕ) : ℚ) := by positivity
  have h1 : ((min k m : ℕ) : ℚ) ≤ (m : ℚ) := by exact_mod_cast Nat.min_le_right k m
  have ht0 : (0 : ℚ) ≤ ((min k m : ℕ) : ℚ) / (m : ℚ) := div_nonneg h0 (le_of_lt hm')
  have ht1 : ((min k m : ℕ) : ℚ) / (m : ℚ) ≤ 1 := (div_le_one hm').mpr h1
  unfold trialPoint
  constructor
  · have := mul_nonneg (sub_nonneg.mpr hle) ht0
    linarith
  · have key : (hi - lo) * (((min k m : ℕ) : ℚ) / (m : ℚ)) ≤ (hi - lo) * 1 :=
      mul_le_mul_of_nonneg_left ht1 (sub_nonneg.mpr hle)
    linarith

/-- Accessing a handle right after dropping it from a catalog fails. -/
theorem accessHandle_dropName (c : Catalog) (handle : String) :
    (c.dropName handle).accessHandle handle = Except.error "resource not found" := by
  unfold Catalog.accessHandle Catalog.dropName
  have hmem : handle ∉ c.entries.filter (fun e => decide (e ≠ handle)) := by
    simp [List.mem_filter]
  simp [hmem]

/-! ## Claim C1 -/

/-- Claim C1: for every choice of valid connection parameters, session
establishment succeeds if and only if the server is reachable and reports a
version at or above the asserted minimum (2.5.0); when the reachable server's
reported version is below that minimum, the notebook run fails with the
compatibility (assertion) error at the version-check statement, before any
further call is issued — the executed statements are exactly the first two. -/
theorem C1_session_version_gate (params : ConnectionParams) (srv : Server)
    (o : Oracle)
    (hconn : o.fails RemoteCall.connect = none)
    (hver : o.fails RemoteCall.serverVersion = none)
    (hlow : versionGe o.version minServerVersion = false) :
    (exceptIsOk (establishSession params srv) = true ↔
      (srv.reachableAt params.uri = true ∧
        versionGe srv.version minServerVersion = true)) ∧
    (srv.reachableAt params.uri = true →
      versionGe srv.version minServerVersion = false →
      establishSession params srv = Except.error SessionError.compatibilityError) ∧
    (run notebookProgram o).1 = RunOutcome.assertionError 1 ∧
    (run notebookProgram o).2 = notebookProgram.take 2 := by
  refine ⟨?_, ?_, ?_, ?_⟩
  · unfold establishSession
    by_cases hr : srv.reachableAt params.uri
    · by_cases hv : versionGe srv.version minServerVersion
      · simp [hr, hv, exceptIsOk]
      · simp [hr, hv, exceptIsOk]
    · simp [hr, exceptIsOk]
  · intro hr hv
    unfold establishSession
    simp [hr, hv]
  · simp [run, runFrom, notebookProgram, hconn, hver, hlow]
  · simp [run, runFrom, notebookProgram, hconn, hver, hlow]

/-- Concrete instantiation of claim C1: a server reachable everywhere that
reports version 2.4.9 makes the notebook stop with the assertion error at
statement 1. -/
theorem C1_session_version_gate_witness :
    (run notebookProgram
        { fails := fun _ => none, version := ⟨2, 4, 9⟩ }).1 =
      RunOutcome.assertionError 1 :=
  (C1_session_version_gate
    { uri := "bolt://localhost:7687", auth := none, database := "neo4j" }
    { reachableAt := fun _ => true, version := ⟨2, 4, 9⟩ }
    { fails := fun _ => none, version := ⟨2, 4, 9⟩ }
    rfl rfl (by decide)).2.2.1

/-! ## Claim C2 -/

/-- Claim C2: the notebook performs exactly one local check (the
minimum-server-version assertion), and every error raised by any remote call
propagates to the caller uncaught, terminating execution at the statement
that raised it: the executed statements are exactly the prefix ending at the
failing statement, and the propagated message is the server's own. -/
theorem C2_single_local_check_uncaught_errors :
    notebookProgram.countP isLocalCheck = 1 ∧
    ∀ (o : Oracle) (j : Nat) (e : String),
      (run notebookProgram o).1 = RunOutcome.serverError j e →
      (run notebookProgram o).2 = notebookProgram.take (j + 1) ∧
      ∃ c, o.fails c = some e := by
  constructor
  · decide
  · intro o j e h
    obtain ⟨-, -, h3, h4⟩ := runFrom_serverError o notebookProgram 0 j e h
    exact ⟨h3, h4⟩

/-- Concrete instantiation of claim C2: a server failing only the IMDB load
terminates the run at statement 2 having executed exactly the first three
statements, propagating the server's message. -/
theorem C2_single_local_check_uncaught_errors_witness :
    (run notebookProgram
        { fails := fun c => if c = RemoteCall.loadImdb then some "boom" else none,
          version := ⟨2, 5, 0⟩ }).2 = notebookProgram.take 3 ∧
    ∃ c, ({ fails := fun c => if c = RemoteCall.loadImdb then some "boom" else none,
            version := ⟨2, 5, 0⟩ } : Oracle).fails c = some "boom" :=
  C2_single_local_check_uncaught_errors.2
    { fails := fun c => if c = RemoteCall.loadImdb then some "boom" else none,
      version := ⟨2, 5, 0⟩ } 2 "boom" (by decide)

/-! ## Claim C3 -/

/-- Counterexample to claim C3 as stated: with `NEO4J_USER` set to the empty
string and `NEO4J_PASSWORD` set to a non-empty string, both variables are
set, yet the session is created with `auth` equal to `None` — the credential
pair is not passed although both variables are set. -/
theorem C3_env_defaults_counterexample :
    ({ neo4j_uri := none, neo4j_user := some "", neo4j_password := some "secret",
       neo4j_db := none } : Env).neo4j_user ≠ none ∧
    ({ neo4j_uri := none, neo4j_user := some "", neo4j_password := some "secret",
       neo4j_db := none } : Env).neo4j_password ≠ none ∧
    (setupConnection
      { neo4j_uri := none, neo4j_user := some "", neo4j_password := some "secret",
        neo4j_db := none }).auth = none := by
  refine ⟨by simp, by simp, ?_⟩
  simp [setupConnection, pyTruthy]

/-- Claim C3 as amended: the server URI defaults to `bolt://localhost:7687`
when `NEO4J_URI` is unset (and is its value otherwise), the database name
defaults to `neo4j` when `NEO4J_DB` is unset, and the credential pair is
passed if and only if both `NEO4J_USER` and `NEO4J_PASSWORD` are set to
non-empty strings; otherwise `auth` is `None`. -/
theorem C3_env_defaults (env : Env) :
    (setupConnection env).uri = env.neo4j_uri.getD "bolt://localhost:7687" ∧
    (setupConnection env).database = env.neo4j_db.getD "neo4j" ∧
    ∀ u p : String,
      (setupConnection env).auth = some (u, p) ↔
        (env.neo4j_user = some u ∧ env.neo4j_password = some p ∧
          u ≠ "" ∧ p ≠ "") := by
  refine ⟨rfl, rfl, ?_⟩
  intro u p
  cases hu : env.neo4j_user with
  | none => simp [setupConnection, pyTruthy, hu]
  | some su =>
    cases hp : env.neo4j_password with
    | none => simp [setupConnection, pyTruthy, hu, hp]
    | some sp =>
      by_cases hsu : su = ""
      · subst hsu
        simp only [setupConnection, pyTruthy, hu, hp]
        constructor
        · intro h
          simp at h
        · rintro ⟨h1, -, h3, -⟩
          injection h1 with h1
          exact absurd h1.symm h3
      · by_cases hsp : sp = ""
        · subst hsp
          simp only [setupConnection, pyTruthy, hu, hp]
          constructor
          · intro h
            simp [hsu] at h
          · rintro ⟨-, h2, -, h4⟩
            injection h2 with h2
            exact absurd h2.symm h4
        · simp only [setupConnection, pyTruthy, hu, hp]
          constructor
          · intro h
            simp [hsu, hsp] at h
            exact ⟨by rw [h.1], by rw [h.2], by rw [← h.1]; exact hsu,
              by rw [← h.2]; exact hsp⟩
          · rintro ⟨h1, h2, -, -⟩
            injection h1 with h1
            injection h2 with h2
            subst h1
            subst h2
            simp [hsu, hsp]

/-- Concrete instantiation of the amended claim C3: with both credentials set
non-empty, the pair is passed to the session constructor. -/
theorem C3_env_defaults_witness :
    (setupConnection
      { neo4j_uri := none, neo4j_user := some "alice", neo4j_password := some "pw",
        neo4j_db := none }).auth = some ("alice", "pw") :=
  ((C3_env_defaults
    { neo4j_uri := none, neo4j_user := some "alice", neo4j_password := some "pw",
      neo4j_db := none }).2.2 "alice" "pw").mpr
    ⟨rfl, rfl, by simp, by simp⟩

/-! ## Claim C4 -/

/-- Claim C4: the loaded IMDB graph's node label set is exactly
`Movie`, `UnclassifiedMovie`, `Actor`, `Director`, and among these labels
only `Movie` carries the target attribute `genre` in its per-label property
set. -/
theorem C4_imdb_labels_and_target :
    load_imdb.nodeLabelsList.Perm
      ["Movie", "UnclassifiedMovie", "Actor", "Director"] ∧
    ∀ l ∈ load_imdb.nodeLabelsList,
      ("genre" ∈ load_imdb.propsOf l ↔ l = "Movie") := by
  decide

/-! ## Claim C5 -/

/-- Claim C5: at the moment `pipe.train` is invoked, the pipeline holds at
least one selected feature and at least one candidate model specification;
and in the notebook's statement sequence the `selectFeatures` call and an
add-candidate call (`addLogisticRegression`) precede the `train` call. -/
theorem C5_train_preconditions :
    1 ≤ pipeAtTrain.featureProperties.length ∧
    1 ≤ pipeAtTrain.candidates.length ∧
    firstCallIdx RemoteCall.selectFeatures < firstCallIdx RemoteCall.train ∧
    firstCallIdx RemoteCall.addLogisticRegression < firstCallIdx RemoteCall.train := by
  decide

/-! ## Claim C6 -/

/-- Claim C6: the pipeline is configured with split fraction 0.796, and for
every classified population of positive size `n` the held-out evaluation set
chosen by the trained split satisfies the rounding-tolerance property: the
ratio of its size to `n` differs from 0.796 by at most `1 / (2 * n)`. -/
theorem C6_split_fraction (n : ℕ) (hn : 0 < n) :
    pipeAtTrain.splitConfig.lookup "testFraction" =
      some (ParamValue.num (796/1000)) ∧
    |((evalSetSize (796/1000) n : ℤ) : ℚ) / (n : ℚ) - 796/1000| ≤
      1 / (2 * (n : ℚ)) := by
  constructor
  · rfl
  · have hn' : (0 : ℚ) < (n : ℚ) := by exact_mod_cast hn
    have hne : (n : ℚ) ≠ 0 := ne_of_gt hn'
    have h1 : |((round ((796/1000 : ℚ) * (n : ℚ)) : ℤ) : ℚ) -
        (796/1000 : ℚ) * (n : ℚ)| ≤ 1 / 2 := by
      rw [abs_sub_comm]
      exact abs_sub_round ((796/1000 : ℚ) * (n : ℚ))
    have key : ((evalSetSize (796/1000) n : ℤ) : ℚ) / (n : ℚ) - 796/1000 =
        (((round ((796/1000 : ℚ) * (n : ℚ)) : ℤ) : ℚ) -
          (796/1000 : ℚ) * (n : ℚ)) / (n : ℚ) := by
      unfold evalSetSize
      field_simp
      ring
    rw [key, abs_div, abs_of_pos hn']
    calc |((round ((796/1000 : ℚ) * (n : ℚ)) : ℤ) : ℚ) -
            (796/1000 : ℚ) * (n : ℚ)| / (n : ℚ) ≤ (1 / 2) / (n : ℚ) := by gcongr
      _ = 1 / (2 * (n : ℚ)) := by ring

/-- Concrete instantiation of claim C6 at a classified population of 250
nodes: the evaluation set has 199 nodes and the ratio is exactly 0.796. -/
theorem C6_split_fraction_witness :
    0 < 250 ∧
    (pipeAtTrain.splitConfig.lookup "testFraction" =
        some (ParamValue.num (796/1000)) ∧
      |((evalSetSize (796/1000) 250 : ℤ) : ℚ) / ((250 : ℕ) : ℚ) - 796/1000| ≤
        1 / (2 * ((250 : ℕ) : ℚ))) :=
  ⟨by decide, C6_split_fraction 250 (by decide)⟩

/-! ## Claim C7 -/

/-- Claim C7: the pipeline holds candidate model specifications with ranged
hyperparameters (`penalty` in [0.1, 1.0] for logistic regression and
`minSplitSize` in [2, 100] for random forest), and for every ranged
hyperparameter of every candidate, the value the autotuning search resolves
it to lies within the originally specified closed interval. -/
theorem C7_ranged_hyperparameters_within_interval (m k : ℕ) (hm : 0 < m) :
    2 ≤ pipeAtTrain.candidates.length ∧
    ∀ c ∈ pipeAtTrain.candidates, ∀ p lo hi,
      (p, ParamValue.range lo hi) ∈ c.params →
      ∃ q, resolveValue (ParamValue.range lo hi) m k = ParamValue.num q ∧
        lo ≤ q ∧ q ≤ hi := by
  refine ⟨by decide, ?_⟩
  intro c hc p lo hi hp
  refine ⟨trialPoint lo hi m k, rfl, ?_⟩
  have hcand : pipeAtTrain.candidates =
      [{ kind := "LogisticRegression",
         params := [("penalty", ParamValue.range (1/10) 1),
                    ("maxEpochs", ParamValue.num 1000),
                    ("patience", ParamValue.num 5),
                    ("tolerance", ParamValue.num (1/10000)),
                    ("learningRate", ParamValue.num (1/100))] },
       { kind := "RandomForest",
         params := [("minSplitSize", ParamValue.range 2 100),
                    ("criterion", ParamValue.str "ENTROPY")] }] := rfl
  rw [hcand] at hc
  simp only [List.mem_cons, List.not_mem_nil, or_false] at hc
  have hle : lo ≤ hi := by
    rcases hc with hc | hc
    all_goals subst hc
    all_goals simp only [List.mem_cons, List.not_mem_nil, or_false,
      Prod.mk.injEq] at hp
    · rcases hp with ⟨-, hr⟩ | ⟨-, hr⟩ | ⟨-, hr⟩ | ⟨-, hr⟩ | ⟨-, hr⟩ <;>
        first
          | (injection hr with hlo hhi; subst hlo; subst hhi; norm_num)
          | exact absurd hr (by simp)
    · rcases hp with ⟨-, hr⟩ | ⟨-, hr⟩ <;>
        first
          | (injection hr with hlo hhi; subst hlo; subst hhi; norm_num)
          | exact absurd hr (by simp)
  exact trialPoint_mem lo hi m k hm hle

/-- Concrete instantiation of claim C7 at an 11-point search grid, third
trial point, for the `penalty` range of the logistic regression candidate. -/
theorem C7_ranged_hyperparameters_witness :
    ∃ q, resolveValue (ParamValue.range (1/10) 1) 10 3 = ParamValue.num q ∧
      (1/10 : ℚ) ≤ q ∧ q ≤ 1 :=
  (C7_ranged_hyperparameters_within_interval 10 3 (by decide)).2
    { kind := "LogisticRegression",
      params := [("penalty", ParamValue.range (1/10) 1),
                 ("maxEpochs", ParamValue.num 1000),
                 ("patience", ParamValue.num 5),
                 ("tolerance", ParamValue.num (1/10000)),
                 ("learningRate", ParamValue.num (1/100))] }
    (by exact List.mem_cons_self _ _) "penalty" (1/10) 1
    (by exact List.mem_cons_self _ _)

/-! ## Claim C8 -/

/-- Claim C8: streaming prediction with target label `UnclassifiedMovie`
returns exactly one row per node carrying that label, and with the
probability-inclusion flag set, each row's predicted-class distribution sums
to 1 (the sum is exact in our rational model, hence within any
floating-point tolerance). -/
theorem C8_predict_stream_rows (nodes : List NodeRec) (scores : ℕ → List ℚ)
    (hpos : ∀ i : ℕ, 0 < (scores i).sum) :
    (predict_stream nodes scores ["UnclassifiedMovie"] true).length =
      nodes.countP (fun n => decide (n.label = "UnclassifiedMovie")) ∧
    ∀ row ∈ predict_stream nodes scores ["UnclassifiedMovie"] true,
      row.probabilities.sum = 1 := by
  constructor
  · simp only [predict_stream, List.length_map]
    rw [List.countP_eq_length_filter]
    congr 1
    apply List.filter_congr
    intro a _
    simp
  · intro row hrow
    simp only [predict_stream, List.mem_map] at hrow
    obtain ⟨n, hn, rfl⟩ := hrow
    simpa using sum_normalizeScores (scores n.nodeId) (ne_of_gt (hpos n.nodeId))

/-- Concrete instantiation of claim C8 on a two-node graph with one
`UnclassifiedMovie` node and constant class scores `[1, 3]`. -/
theorem C8_predict_stream_rows_witness :
    (predict_stream [{ nodeId := 0, label := "UnclassifiedMovie" },
        { nodeId := 1, label := "Movie" }] (fun _ => [1, 3])
        ["UnclassifiedMovie"] true).length =
      ([{ nodeId := 0, label := "UnclassifiedMovie" },
        { nodeId := 1, label := "Movie" }] : List NodeRec).countP
        (fun n => decide (n.label = "UnclassifiedMovie")) ∧
    ∀ row ∈ predict_stream [{ nodeId := 0, label := "UnclassifiedMovie" },
        { nodeId := 1, label := "Movie" }] (fun _ => [1, 3])
        ["UnclassifiedMovie"] true,
      row.probabilities.sum = 1 :=
  C8_predict_stream_rows
    [{ nodeId := 0, label := "UnclassifiedMovie" },
     { nodeId := 1, label := "Movie" }]
    (fun _ => [1, 3])
    (fun i => by norm_num [List.sum_cons, List.sum_nil])

/-! ## Claim C9 -/

/-- Claim C9: for each of the three released handles (the graph, the pipeline
`genre-predictor-pipe`, and the model `genre-predictor-model`), once the
release call has removed the name from the server catalog, any subsequent
accessor call on that handle fails with a "resource not found" error, for
every possible catalog content. -/
theorem C9_released_handles_not_found (gcat pcat mcat : Catalog)
    (gname : String) :
    (gcat.dropName gname).accessHandle gname =
      Except.error "resource not found" ∧
    (pcat.dropName "genre-predictor-pipe").accessHandle "genre-predictor-pipe" =
      Except.error "resource not found" ∧
    (mcat.dropName notebookTrainCall.modelName).accessHandle
        notebookTrainCall.modelName =
      Except.error "resource not found" :=
  ⟨accessHandle_dropName gcat gname,
   accessHandle_dropName pcat "genre-predictor-pipe",
   accessHandle_dropName mcat notebookTrainCall.modelName⟩

/-! ## Claim C10 -/

/-- Claim C10: the notebook passes fixed random seeds (41 for the HashGNN
embedding step, 42 for the training call), so the random streams consumed by
the two seeded computations do not depend on the ambient server entropy: two
runs with arbitrary, possibly different, entropy sources consume identical
random streams, and hence every deterministic server computation of those
streams (embeddings, split, winning hyperparameters, metric values) yields
identical results across the two runs. -/
theorem C10_fixed_seeds_deterministic (e1 e2 : ℕ → ℕ) :
    seedOfConfig hashgnnStepConfig = some 41 ∧
    notebookTrainCall.randomSeed = some 42 ∧
    notebookRunRandomness e1 = notebookRunRandomness e2 ∧
    ∀ (R : Type) (serverRun : (ℕ → ℕ) × (ℕ → ℕ) → R),
      serverRun (notebookRunRandomness e1) =
        serverRun (notebookRunRandomness e2) := by
  have h : notebookRunRandomness e1 = notebookRunRandomness e2 := rfl
  exact ⟨rfl, rfl, h, fun R f => congrArg f h⟩
